import Mathlib

/-!
Verification of the device-state reconciliation core of the Breeze portal
(`lib/mqtt.ts` message handling, `lib/deviceStore.ts` registry) against its
specification.

Shallow embedding conventions:
* JSON payloads are modelled by `JVal` / `JTop`: flat JSON values sufficient
  for the protocol payloads of the spec's §6 (all of which are flat objects
  of strings, numbers and booleans).  `JSON.parse` is a platform library
  function, so the result of the parse attempt is an *input* of the embedded
  handler: `parsed = none` models a payload string that is not valid JSON
  (the `catch` branch of the inner `try` in `handleMessage`), and
  `parsed = some v` models a successful parse yielding `v`.
* Wall-clock time (`new Date()`) is a `Nat` parameter `now` threaded into
  every operation that stamps `lastSeen`.
* JavaScript exceptions are modelled with `Except Unit`: property access on
  `null` and property assignment on a non-object throw `TypeError` (strict
  mode); the body of `handleMessage` is `handleMessageE` and the surrounding
  `try/catch` is the total wrapper `handleMessage`.
-/

namespace Breeze

/-! ### String primitives

The JS string operations used by the source (`split('/')`,
`toLowerCase()`, `trim()`) are modelled char-by-char so that concrete
runs reduce inside the kernel.  `toLowerCase`/`trim` are modelled on the
ASCII range, which covers every protocol string of spec §6. -/

/-- Worker for `splitChar`: accumulates the current segment (reversed). -/
def splitCharAux (sep : Char) : List Char → List Char → List (List Char)
  | [], acc => [acc.reverse]
  | c :: cs, acc =>
    if c = sep then acc.reverse :: splitCharAux sep cs []
    else splitCharAux sep cs (c :: acc)

/-- JS `s.split(sep)` for a one-character separator: keeps empty segments,
and splitting the empty string yields `[""]`. -/
def splitChar (s : String) (sep : Char) : List String :=
  (splitCharAux sep s.data []).map String.mk

/-- ASCII lowercasing of one character. -/
def lowerChar (c : Char) : Char :=
  if 'A' ≤ c ∧ c ≤ 'Z' then Char.ofNat (c.toNat + 32) else c

/-- JS `s.toLowerCase()` on ASCII strings. -/
def toLowerStr (s : String) : String :=
  String.mk (s.data.map lowerChar)

/-- The whitespace characters relevant to JS `trim()` on protocol text. -/
def isJsWhitespace (c : Char) : Bool :=
  c = ' ' || c = '\t' || c = '\n' || c = '\r'

/-- JS `s.trim()`: strips whitespace from both ends.  (The reconciler
source never calls it; it appears only in the specification's wording for
plain-text payload decoding.) -/
def trimStr (s : String) : String :=
  String.mk (((s.data.dropWhile isJsWhitespace).reverse.dropWhile isJsWhitespace).reverse)

/-! ### JSON value model -/

/-- A flat JSON scalar value (string, number, boolean or null). -/
inductive JVal where
  | jstr (s : String)
  | jnum (n : Int)
  | jbool (b : Bool)
  | jnull
deriving DecidableEq, Repr

/-- A JSON object: an ordered association list of fields, as produced by
`JSON.parse` on the flat protocol payloads. -/
abbrev JObj := List (String × JVal)

/-- A top-level JSON value as returned by `JSON.parse`: either an object or a
scalar (a bare string / number / boolean / null document). -/
inductive JTop where
  | jobj (o : JObj)
  | jprim (v : JVal)
deriving DecidableEq, Repr

/-- Field lookup on a JSON object (first binding wins, as JS object keys are
unique). -/
def lookupField (o : JObj) (k : String) : Option JVal :=
  (List.find? (fun p => p.1 = k) o).map (fun p => p.2)

/-- Field write on a JSON object: overwrite an existing key in place,
otherwise append (JS property assignment). -/
def setField (o : JObj) (k : String) (v : JVal) : JObj :=
  if (List.find? (fun p => p.1 = k) o).isSome then
    o.map (fun p => if p.1 = k then (k, v) else p)
  else
    o ++ [(k, v)]

/-- JavaScript truthiness of an (optional) property value: `undefined`,
`null`, `""`, `0` and `false` are falsy. -/
def jTruthy : Option JVal → Bool
  | none => false
  | some (JVal.jstr s) => !(s = "")
  | some (JVal.jnum n) => !(n = 0)
  | some (JVal.jbool b) => b
  | some JVal.jnull => false

/-- JS property read `data.k`: throws `TypeError` on `null`, yields
`undefined` (`none`) on other scalars, looks the field up on objects. -/
def jGet : JTop → String → Except Unit (Option JVal)
  | JTop.jobj o, k => Except.ok (lookupField o k)
  | JTop.jprim JVal.jnull, _ => Except.error ()
  | JTop.jprim _, _ => Except.ok none

/-- JS property write `data.k = v` (strict mode): throws `TypeError` unless
the receiver is an object. -/
def jSet : JTop → String → JVal → Except Unit JObj
  | JTop.jobj o, k, v => Except.ok (setField o k v)
  | JTop.jprim _, _, _ => Except.error ()

/-- The untyped key-value view of an inbound payload used by the registry
update operations (spec §9: "model inbound payload as an untyped key-value
map"); non-object payloads contribute no fields. -/
def jFields : JTop → JObj
  | JTop.jobj o => o
  | JTop.jprim _ => []

/-- Total field lookup through the `JTop` wrapper. -/
def jLookup (t : JTop) (k : String) : Option JVal :=
  lookupField (jFields t) k

/-! ### Device records and the registry (`lib/deviceStore.ts`) -/

/-- A device record (`Device` of `types/device.ts`, fields per spec §3 and
the `DeviceStore` constructor). `status` and `state` are kept as strings so
that the two-value enumeration constraints can be stated and checked. -/
structure Device where
  id : String
  name : String
  type : String
  status : String
  state : String
  lastSeen : Nat
  ipAddress : Option String
  macAddress : Option String
  firmwareVersion : Option String
  wifiStrength : Option Int
  uptime : Option Int
deriving DecidableEq, Repr

/-- The registry contents: the `Map<string, Device>` of `DeviceStore`,
modelled as its list of values in insertion order. -/
abbrev Store := List Device

/-- `devices.get(id)` — find the record with the given id. -/
def getDevice (s : Store) (id : String) : Option Device :=
  List.find? (fun d => d.id = id) s

/-- `getAllDevices()` — all records in insertion order. -/
def getAllDevices (s : Store) : List Device := s

/-- `devices.set(d.id, d)` — JS `Map.set`: replace in place if the key
exists (keeping insertion order), otherwise append. -/
def setDevice (s : Store) (d : Device) : Store :=
  if (List.find? (fun e => e.id = d.id) s).isSome then
    s.map (fun e => if e.id = d.id then d else e)
  else
    s ++ [d]

/-- `addDevice(device)` of `deviceStore.ts`. -/
def addDevice (d : Device) (s : Store) : Store :=
  setDevice s d

/-- `removeDevice(id)` of `deviceStore.ts` (`Map.delete`). -/
def removeDevice (id : String) (s : Store) : Store :=
  s.filter (fun d => !(d.id = id))

/-- The partial update accepted by `updateDevice` (`Partial<DeviceUpdate>`):
a present field overrides the stored value, an absent field leaves it. -/
structure DeviceUpdate where
  name : Option String := none
  type : Option String := none
  status : Option String := none
  state : Option String := none
  ipAddress : Option String := none
  macAddress : Option String := none
  firmwareVersion : Option String := none
  wifiStrength : Option Int := none
  uptime : Option Int := none
deriving DecidableEq, Repr

/-- `updateDevice(id, update)` of `deviceStore.ts`: returns `null` and does
nothing for an unknown id; otherwise spreads the update over the existing
record (`{...device, ...update, lastSeen: new Date()}`) and stores it. -/
def updateDevice (now : Nat) (id : String) (u : DeviceUpdate) (s : Store) :
    Option Device × Store :=
  match getDevice s id with
  | none => (none, s)
  | some d =>
    let d' : Device :=
      { id := d.id
        name := u.name.getD d.name
        type := u.type.getD d.type
        status := u.status.getD d.status
        state := u.state.getD d.state
        lastSeen := now
        ipAddress := match u.ipAddress with
          | some v => some v
          | none => d.ipAddress
        macAddress := match u.macAddress with
          | some v => some v
          | none => d.macAddress
        firmwareVersion := match u.firmwareVersion with
          | some v => some v
          | none => d.firmwareVersion
        wifiStrength := match u.wifiStrength with
          | some v => some v
          | none => d.wifiStrength
        uptime := match u.uptime with
          | some v => some v
          | none => d.uptime }
    (some d', setDevice s d')

/-- `toggleDeviceState(id)` of `deviceStore.ts`. -/
def toggleDeviceState (now : Nat) (id : String) (s : Store) :
    Option Device × Store :=
  match getDevice s id with
  | none => (none, s)
  | some d =>
    updateDevice now id { state := some (if d.state = "on" then "off" else "on") } s

/-- First record seeded by the `DeviceStore` constructor. -/
def seedEsp32 (now : Nat) : Device :=
  { id := "esp32-001"
    name := "Living Room Light"
    type := "ESP32"
    status := "offline"
    state := "off"
    lastSeen := now
    ipAddress := none
    macAddress := some "24:6F:28:12:34:56"
    firmwareVersion := some "1.0.0"
    wifiStrength := none
    uptime := none }

/-- Second record seeded by the `DeviceStore` constructor. -/
def seedEsp8266 (now : Nat) : Device :=
  { id := "esp8266-001"
    name := "Kitchen Fan"
    type := "ESP8266"
    status := "offline"
    state := "off"
    lastSeen := now
    ipAddress := none
    macAddress := some "18:FE:34:98:76:54"
    firmwareVersion := some "1.0.0"
    wifiStrength := none
    uptime := none }

/-- The registry as built by the `DeviceStore` constructor: the two example
devices added in order. -/
def initialStore (now : Nat) : Store :=
  addDevice (seedEsp8266 now) (addDevice (seedEsp32 now) [])

/-! ### Spec-modelled registry update operations

`lib/mqtt.ts` calls `deviceStore.addOrUpdateDevice`, `updateDeviceStatus`
and `updateDeviceState`; the repository's `deviceStore` module defining
these methods is not among the available sources (only their caller is), so
they are modelled from the spec (§3 lifecycle and invariants, §4.2 dispatch,
§4.3 stub-record policy, §9 type-checked extraction). -/

/-- Type-checked string extraction of a payload field (spec §9: discard
non-conforming values). -/
def strField (o : JObj) (k : String) : Option String :=
  match lookupField o k with
  | some (JVal.jstr s) => some s
  | _ => none

/-- Type-checked numeric extraction of a payload field (spec §3: optional
numeric fields updated only when the inbound value is actually numeric). -/
def intField (o : JObj) (k : String) : Option Int :=
  match lookupField o k with
  | some (JVal.jnum n) => some n
  | _ => none

/-- Type-checked boolean extraction of a payload field (spec §4.2: status is
derived from the `online` field only when it is literally a boolean). -/
def boolField (o : JObj) (k : String) : Option Bool :=
  match lookupField o k with
  | some (JVal.jbool b) => some b
  | _ => none

/-- Extraction of a valid `state` enumeration value from a payload (spec §3:
values outside `{on, off}` are ignored for the field, not stored). -/
def enumStateField (o : JObj) : Option String :=
  match strField o "state" with
  | some x => if x = "on" ∨ x = "off" then some x else none
  | none => none

/-- Coercion applied by a `state` message to a present `state` field (spec
§4.2: validated against the two-value enumeration, invalid values are
coerced to "off"). -/
def coerceState (v : JVal) : String :=
  if v = JVal.jstr "on" then "on"
  else if v = JVal.jstr "off" then "off"
  else "off"

/-- Modelled from the spec: the minimally-populated stub record auto-created
on non-discovery traffic for an unknown id (spec §4.3 "the core MUST create
a minimal record if a status/state message arrives for an unknown id",
glossary "Stub record"; name synthesized from the id, type fallback ESP32,
state off). -/
def stubDevice (id : String) (now : Nat) : Device :=
  { id := id
    name := "Device " ++ id
    type := "ESP32"
    status := "offline"
    state := "off"
    lastSeen := now
    ipAddress := none
    macAddress := none
    firmwareVersion := none
    wifiStrength := none
    uptime := none }

/-- Modelled from the spec: `deviceStore.updateDeviceStatus(deviceId, data)`
(missing from the available sources; spec §4.2 "status" dispatch): creates a
stub for an unknown id, derives `status` from a literal boolean `online`
field, merges numeric `wifi_strength`/`uptime` when present and numeric, and
refreshes `lastSeen`. -/
def updateDeviceStatus (now : Nat) (id : String) (data : JTop) (s : Store) : Store :=
  let o := jFields data
  let d := (getDevice s id).getD (stubDevice id now)
  setDevice s
    { d with
      status := match boolField o "online" with
        | some true => "online"
        | some false => "offline"
        | none => d.status
      wifiStrength := match intField o "wifi_strength" with
        | some n => some n
        | none => d.wifiStrength
      uptime := match intField o "uptime" with
        | some n => some n
        | none => d.uptime
      lastSeen := now }

/-- Modelled from the spec: `deviceStore.updateDeviceState(deviceId, data)`
(missing from the available sources; spec §4.2 "state" dispatch):
merge-updates the `state` field only — a present value is validated against
`{on, off}` and coerced to "off" when invalid, an absent field leaves state
unchanged — creates a stub for an unknown id, and refreshes `lastSeen`. -/
def updateDeviceState (now : Nat) (id : String) (data : JTop) (s : Store) : Store :=
  let o := jFields data
  let d := (getDevice s id).getD (stubDevice id now)
  setDevice s
    { d with
      state := match lookupField o "state" with
        | some v => coerceState v
        | none => d.state
      lastSeen := now }

/-- Modelled from the spec: `deviceStore.addOrUpdateDevice(data)` (missing
from the available sources; spec §4.2 "discovery" dispatch, §3 lifecycle):
keyed by the payload's string `id` (the caller has already defaulted it to
the topic-derived id); creates a record with the creation defaults when the
id is unknown, otherwise merge-updates forcing `status = online` and
refreshing any of name/type/firmware/ip/mac/state present in the payload;
refreshes `lastSeen`. -/
def addOrUpdateDevice (now : Nat) (o : JObj) (s : Store) : Store :=
  match strField o "id" with
  | none => s
  | some id =>
    match getDevice s id with
    | none =>
      setDevice s
        { id := id
          name := (strField o "name").getD ("Device " ++ id)
          type := (strField o "type").getD "ESP32"
          status := "online"
          state := (enumStateField o).getD "off"
          lastSeen := now
          ipAddress := strField o "ip"
          macAddress := strField o "mac"
          firmwareVersion := strField o "firmware"
          wifiStrength := none
          uptime := none }
    | some d =>
      setDevice s
        { d with
          status := "online"
          name := (strField o "name").getD d.name
          type := (strField o "type").getD d.type
          state := (enumStateField o).getD d.state
          ipAddress := match strField o "ip" with
            | some v => some v
            | none => d.ipAddress
          macAddress := match strField o "mac" with
            | some v => some v
            | none => d.macAddress
          firmwareVersion := match strField o "firmware" with
            | some v => some v
            | none => d.firmwareVersion
          lastSeen := now }

/-! ### The message handler (`lib/mqtt.ts`) -/

/-- The device-id extraction of `handleMessage` (lines 75–91): with at least
3 `/`-separated segments, the id is segment 3 when segment 2 is literally
"devices" and segment 2 otherwise; fewer segments leave the id empty, which
the handler treats as a parse failure. -/
def extractDeviceId (topic : String) : String :=
  let topicParts := splitChar topic '/'
  if topicParts.length ≥ 3 then
    if topicParts.getD 1 "" = "devices" then topicParts.getD 2 ""
    else topicParts.getD 1 ""
  else ""

/-- The message kind used by `handleMessage`'s dispatch: the last
`/`-separated segment of the topic (`topicParts[topicParts.length - 1]`). -/
def messageKind (topic : String) : String :=
  let topicParts := splitChar topic '/'
  topicParts.getD (topicParts.length - 1) ""

/-- Payload decoding of `handleMessage` (lines 93–106): a successful
`JSON.parse` result is used as-is; otherwise the text is wrapped as
`{raw_message: text}` and, when its lowercase form is exactly "on" or "off",
a `state` field with that value is added.  (The code lowercases the whole
string without trimming.) -/
def decodePayload (parsed : Option JTop) (raw : String) : JTop :=
  match parsed with
  | some v => v
  | none =>
    let base : JObj := [("raw_message", JVal.jstr raw)]
    if toLowerStr raw = "on" ∨ toLowerStr raw = "off" then
      JTop.jobj (setField base "state" (JVal.jstr (toLowerStr raw)))
    else
      JTop.jobj base

/-- The body of `handleMessage` (lines 70–141), before the surrounding
`try/catch`: an `Except.error` models a thrown JS exception. -/
def handleMessageE (topic : String) (parsed : Option JTop) (raw : String)
    (now : Nat) (s : Store) : Except Unit Store :=
  let deviceId := extractDeviceId topic
  if deviceId = "" then Except.ok s
  else
    let data := decodePayload parsed raw
    let lastPart := messageKind topic
    if lastPart = "discovery" then
      match jGet data "id" with
      | Except.error e => Except.error e
      | Except.ok idv =>
        if jTruthy idv ∨ ¬(deviceId = "") then
          match jSet data "id"
              (if jTruthy idv then idv.getD JVal.jnull else JVal.jstr deviceId) with
          | Except.error e => Except.error e
          | Except.ok o2 => Except.ok (addOrUpdateDevice now o2 s)
        else Except.ok s
    else if lastPart = "status" then
      Except.ok (updateDeviceStatus now deviceId data s)
    else if lastPart = "state" then
      Except.ok (updateDeviceState now deviceId data s)
    else
      match jGet data "id" with
      | Except.error e => Except.error e
      | Except.ok idv =>
        let condE : Except Unit Bool :=
          if jTruthy idv then Except.ok true
          else
            match jGet data "name" with
            | Except.error e => Except.error e
            | Except.ok namev =>
              if jTruthy namev then Except.ok true
              else
                match jGet data "type" with
                | Except.error e => Except.error e
                | Except.ok typev => Except.ok (jTruthy typev)
        match condE with
        | Except.error e => Except.error e
        | Except.ok cond =>
          if cond then
            match jSet data "id"
                (if jTruthy idv then idv.getD JVal.jnull else JVal.jstr deviceId) with
            | Except.error e => Except.error e
            | Except.ok o2 => Except.ok (addOrUpdateDevice now o2 s)
          else Except.ok (updateDeviceStatus now deviceId data s)

/-- `handleMessage` with its surrounding `try/catch`: an internal failure
drops the message, leaving the registry untouched. -/
def handleMessage (topic : String) (parsed : Option JTop) (raw : String)
    (now : Nat) (s : Store) : Store :=
  match handleMessageE topic parsed raw now s with
  | Except.ok s' => s'
  | Except.error _ => s

/-! ### The command dispatcher (`lib/mqtt.ts`, `publishCommand`) -/

/-- The connection state of the `MQTTManager` relevant to `publishCommand`. -/
structure MqttConn where
  isConnected : Bool
  hasClient : Bool
deriving DecidableEq, Repr

/-- The command topic built by `publishCommand`. -/
def commandTopic (deviceId command : String) : String :=
  "breeze/devices/" ++ deviceId ++ "/command/" ++ command

/-- `publishCommand(deviceId, command, data)` (lines 150–177): returns
`false` and publishes nothing when not connected; otherwise publishes the
payload on the command topic, resolving `true` exactly when the transport
acknowledges without error (`pubOk` models the publish callback's outcome).
The registry is threaded through unchanged: the source never touches
`deviceStore`. -/
def publishCommand (conn : MqttConn) (pubOk : Bool) (deviceId command : String)
    (data : JObj) (s : Store) : Bool × List (String × JObj) × Store :=
  if !conn.isConnected || !conn.hasClient then
    (false, [], s)
  else
    (pubOk, [(commandTopic deviceId command, data)], s)

/-! ### Reachable registry states

The registry states reachable through the reconciliation core: the
constructor's seeds, inbound message processing, and the store's own
toggle/remove operations. -/

/-- Registry states reachable through the reconciliation core. -/
inductive Reachable : Store → Prop where
  | init (now : Nat) : Reachable (initialStore now)
  | msg {s : Store} (topic : String) (parsed : Option JTop) (raw : String)
      (now : Nat) : Reachable s → Reachable (handleMessage topic parsed raw now s)
  | toggle {s : Store} (now : Nat) (id : String) :
      Reachable s → Reachable (toggleDeviceState now id s).2
  | remove {s : Store} (id : String) :
      Reachable s → Reachable (removeDevice id s)

/-- The two-value enumeration invariant on `state` (spec §3). -/
def StateInv (s : Store) : Prop :=
  ∀ d ∈ s, d.state = "on" ∨ d.state = "off"

/-! ### Lookup / update lemmas for objects and the store -/

theorem find?_key_map_replace (o : JObj) (k : String) (v : JVal) :
    List.find? (fun p => p.1 = k) (o.map (fun p => if p.1 = k then (k, v) else p)) =
      (List.find? (fun p => p.1 = k) o).map (fun _ => (k, v)) := by
  induction o with
  | nil => rfl
  | cons a o ih =>
    by_cases h : a.1 = k
    · simp [List.find?_cons, h]
    · simp [List.find?_cons, h, ih]

theorem find?_key_map_replace_ne (o : JObj) (k k' : String) (v : JVal) (h : ¬ k' = k) :
    List.find? (fun p => p.1 = k') (o.map (fun p => if p.1 = k then (k, v) else p)) =
      List.find? (fun p => p.1 = k') o := by
  have h' : ¬ k = k' := fun hc => h hc.symm
  induction o with
  | nil => rfl
  | cons a o ih =>
    by_cases h1 : a.1 = k
    · have h2 : ¬ a.1 = k' := by
        rw [h1]
        exact h'
      simp [List.find?_cons, h1, h2, h', ih]
    · by_cases h2 : a.1 = k'
      · simp [List.find?_cons, h1, h2, h, ih]
      · simp [List.find?_cons, h1, h2, ih]

theorem lookupField_setField_self (o : JObj) (k : String) (v : JVal) :
    lookupField (setField o k v) k = some v := by
  unfold setField
  by_cases hs : (List.find? (fun p => p.1 = k) o).isSome
  · rw [if_pos hs]
    unfold lookupField
    rw [find?_key_map_replace]
    cases hf : List.find? (fun p => p.1 = k) o with
    | none => rw [hf] at hs; simp at hs
    | some p => simp
  · rw [if_neg hs]
    unfold lookupField
    rw [List.find?_append]
    cases hf : List.find? (fun p => p.1 = k) o with
    | none => simp [List.find?_cons]
    | some p => rw [hf] at hs; simp at hs

theorem lookupField_setField_ne (o : JObj) (k k' : String) (v : JVal) (h : ¬ k' = k) :
    lookupField (setField o k v) k' = lookupField o k' := by
  unfold setField
  by_cases hs : (List.find? (fun p => p.1 = k) o).isSome
  · rw [if_pos hs]
    unfold lookupField
    rw [find?_key_map_replace_ne o k k' v h]
  · rw [if_neg hs]
    unfold lookupField
    rw [List.find?_append]
    have h' : ¬ k = k' := fun hc => h hc.symm
    have hone : List.find? (fun p => p.1 = k') [(k, v)] = none := by
      simp [List.find?_cons, h']
    rw [hone]
    cases List.find? (fun p => p.1 = k') o <;> rfl

theorem find?_devid_map_replace (s : Store) (d : Device) :
    List.find? (fun e => e.id = d.id) (s.map (fun e => if e.id = d.id then d else e)) =
      (List.find? (fun e => e.id = d.id) s).map (fun _ => d) := by
  induction s with
  | nil => rfl
  | cons a s ih =>
    by_cases h : a.id = d.id
    · simp [List.find?_cons, h]
    · simp [List.find?_cons, h, ih]

theorem find?_devid_map_replace_ne (s : Store) (d : Device) (id : String) (h : ¬ d.id = id) :
    List.find? (fun e => e.id = id) (s.map (fun e => if e.id = d.id then d else e)) =
      List.find? (fun e => e.id = id) s := by
  induction s with
  | nil => rfl
  | cons a s ih =>
    by_cases h1 : a.id = d.id
    · have h2 : ¬ a.id = id := by rw [h1]; exact h
      simp [List.find?_cons, h1, h, h2, ih]
    · by_cases h2 : a.id = id
      · have h3 : ¬ id = d.id := fun hc => h (hc.symm)
        simp [List.find?_cons, h1, h2, h3, ih]
      · simp [List.find?_cons, h1, h2, ih]

theorem getDevice_setDevice_self (s : Store) (d : Device) (id : String) (h : d.id = id) :
    getDevice (setDevice s d) id = some d := by
  subst h
  unfold setDevice getDevice
  by_cases hs : (List.find? (fun e => e.id = d.id) s).isSome
  · rw [if_pos hs, find?_devid_map_replace]
    cases hf : List.find? (fun e => e.id = d.id) s with
    | none => rw [hf] at hs; simp at hs
    | some p => simp
  · rw [if_neg hs, List.find?_append]
    cases hf : List.find? (fun e => e.id = d.id) s with
    | none => simp [List.find?_cons]
    | some p => rw [hf] at hs; simp at hs

theorem getDevice_setDevice_ne (s : Store) (d : Device) (id : String) (h : ¬ d.id = id) :
    getDevice (setDevice s d) id = getDevice s id := by
  unfold setDevice getDevice
  by_cases hs : (List.find? (fun e => e.id = d.id) s).isSome
  · rw [if_pos hs, find?_devid_map_replace_ne s d id h]
  · rw [if_neg hs, List.find?_append]
    have : List.find? (fun e => e.id = id) [d] = none := by
      simp [List.find?_cons, h]
    rw [this]
    cases List.find? (fun e => e.id = id) s <;> rfl

theorem mem_setDevice {x d : Device} {s : Store} (h : x ∈ setDevice s d) :
    x = d ∨ x ∈ s := by
  unfold setDevice at h
  by_cases hs : (List.find? (fun e => e.id = d.id) s).isSome
  · rw [if_pos hs] at h
    rcases List.mem_map.1 h with ⟨a, ha, hax⟩
    by_cases h1 : a.id = d.id
    · rw [if_pos h1] at hax
      exact Or.inl hax.symm
    · rw [if_neg h1] at hax
      exact Or.inr (hax ▸ ha)
  · rw [if_neg hs] at h
    rcases List.mem_append.1 h with ha | ha
    · exact Or.inr ha
    · simp at ha
      exact Or.inl ha

theorem getDevice_eq_some {s : Store} {id : String} {d : Device}
    (h : getDevice s id = some d) : d ∈ s ∧ d.id = id := by
  refine ⟨List.mem_of_find?_eq_some h, ?_⟩
  have := List.find?_some h
  simpa using this

/-! ### Preservation of the state enumeration invariant -/

theorem initialStore_eq (now : Nat) :
    initialStore now = [seedEsp32 now, seedEsp8266 now] := rfl

theorem stateInv_initialStore (now : Nat) : StateInv (initialStore now) := by
  intro d hd
  rw [initialStore_eq] at hd
  simp only [List.mem_cons, List.not_mem_nil, or_false] at hd
  rcases hd with h | h
  · rw [h]; right; rfl
  · rw [h]; right; rfl

theorem stateInv_setDevice {s : Store} {d : Device}
    (hd : d.state = "on" ∨ d.state = "off") (h : StateInv s) :
    StateInv (setDevice s d) := by
  intro x hx
  rcases mem_setDevice hx with he | hm
  · rw [he]; exact hd
  · exact h x hm

theorem enumStateField_valid {o : JObj} {x : String}
    (h : enumStateField o = some x) : x = "on" ∨ x = "off" := by
  unfold enumStateField at h
  split at h
  next y _ =>
    split at h
    next hv =>
      injection h with h
      rw [← h]; exact hv
    next => cases h
  next => cases h

theorem coerceState_valid (v : JVal) :
    coerceState v = "on" ∨ coerceState v = "off" := by
  unfold coerceState
  by_cases h1 : v = JVal.jstr "on"
  · rw [if_pos h1]; left; rfl
  · rw [if_neg h1]
    by_cases h2 : v = JVal.jstr "off"
    · rw [if_pos h2]; right; rfl
    · rw [if_neg h2]; right; rfl

theorem state_getD_valid {s : Store} {id : String} (now : Nat) (h : StateInv s) :
    ((getDevice s id).getD (stubDevice id now)).state = "on" ∨
      ((getDevice s id).getD (stubDevice id now)).state = "off" := by
  cases hg : getDevice s id with
  | none => right; rfl
  | some d => exact h d (getDevice_eq_some hg).1

theorem stateInv_addOrUpdateDevice {s : Store} (now : Nat) (o : JObj)
    (h : StateInv s) : StateInv (addOrUpdateDevice now o s) := by
  unfold addOrUpdateDevice
  split
  next => exact h
  next id _ =>
    split
    next =>
      apply stateInv_setDevice _ h
      cases he : enumStateField o with
      | none => simp [he]
      | some x => simpa [he] using enumStateField_valid he
    next d hg =>
      apply stateInv_setDevice _ h
      cases he : enumStateField o with
      | none => simpa [he] using h d (getDevice_eq_some hg).1
      | some x => simpa [he] using enumStateField_valid he

theorem stateInv_updateDeviceStatus {s : Store} (now : Nat) (id : String)
    (data : JTop) (h : StateInv s) : StateInv (updateDeviceStatus now id data s) := by
  unfold updateDeviceStatus
  apply stateInv_setDevice _ h
  exact state_getD_valid now h

theorem stateInv_updateDeviceState {s : Store} (now : Nat) (id : String)
    (data : JTop) (h : StateInv s) : StateInv (updateDeviceState now id data s) := by
  unfold updateDeviceState
  apply stateInv_setDevice _ h
  cases hl : lookupField (jFields data) "state" with
  | none =>
    simp only [hl]
    exact state_getD_valid now h
  | some v =>
    simp only [hl]
    exact coerceState_valid v

theorem stateInv_toggleDeviceState {s : Store} (now : Nat) (id : String)
    (h : StateInv s) : StateInv (toggleDeviceState now id s).2 := by
  unfold toggleDeviceState
  cases hg : getDevice s id with
  | none => exact h
  | some d =>
    unfold updateDevice
    rw [hg]
    apply stateInv_setDevice _ h
    by_cases hd : d.state = "on"
    · rw [if_pos hd]; right; rfl
    · rw [if_neg hd]; left; rfl

theorem stateInv_removeDevice {s : Store} (id : String) (h : StateInv s) :
    StateInv (removeDevice id s) := by
  intro x hx
  exact h x (List.mem_filter.1 hx).1

theorem stateInv_handleMessageE {s s' : Store} (topic : String)
    (parsed : Option JTop) (raw : String) (now : Nat) (h : StateInv s)
    (he : handleMessageE topic parsed raw now s = Except.ok s') : StateInv s' := by
  simp only [handleMessageE] at he
  repeat' split at he
  all_goals cases he
  all_goals first
    | exact h
    | exact stateInv_addOrUpdateDevice _ _ h
    | exact stateInv_updateDeviceStatus _ _ _ h
    | exact stateInv_updateDeviceState _ _ _ h

theorem stateInv_handleMessage {s : Store} (topic : String) (parsed : Option JTop)
    (raw : String) (now : Nat) (h : StateInv s) :
    StateInv (handleMessage topic parsed raw now s) := by
  unfold handleMessage
  cases he : handleMessageE topic parsed raw now s with
  | ok s' => exact stateInv_handleMessageE topic parsed raw now h he
  | error e => exact h

theorem stateInv_reachable {s : Store} (h : Reachable s) : StateInv s := by
  induction h with
  | init now => exact stateInv_initialStore now
  | msg topic parsed raw now _ ih => exact stateInv_handleMessage topic parsed raw now ih
  | toggle now id _ ih => exact stateInv_toggleDeviceState now id ih
  | remove id _ ih => exact stateInv_removeDevice id ih

/-! ### Claim theorems -/

/-- C10: at construction, before any inbound message is processed, the
registry already contains exactly two pre-seeded records with ids
"esp32-001" and "esp8266-001", each with status "offline" and state "off",
so the initial list is non-empty and both records exist without any
discovery message having arrived. -/
theorem claim_C10_initial_registry_seeded (now : Nat) :
    (getAllDevices (initialStore now)).length = 2 ∧
    ¬ getAllDevices (initialStore now) = [] ∧
    (∃ d, getDevice (initialStore now) "esp32-001" = some d ∧
      d.status = "offline" ∧ d.state = "off") ∧
    (∃ d, getDevice (initialStore now) "esp8266-001" = some d ∧
      d.status = "offline" ∧ d.state = "off") := by
  refine ⟨rfl, ?_, ⟨seedEsp32 now, rfl, rfl, rfl⟩, ⟨seedEsp8266 now, rfl, rfl, rfl⟩⟩
  rw [initialStore_eq]
  simp [getAllDevices]

/-- Witness for C10, at construction time 0. -/
theorem claim_C10_initial_registry_seeded_witness :
    (getAllDevices (initialStore 0)).length = 2 ∧
    (∃ d, getDevice (initialStore 0) "esp32-001" = some d ∧
      d.status = "offline" ∧ d.state = "off") ∧
    (∃ d, getDevice (initialStore 0) "esp8266-001" = some d ∧
      d.status = "offline" ∧ d.state = "off") :=
  ⟨(claim_C10_initial_registry_seeded 0).1, (claim_C10_initial_registry_seeded 0).2.2.1,
    (claim_C10_initial_registry_seeded 0).2.2.2⟩

/-- C5: for every topic with at least 3 '/'-separated segments, the parser
yields deviceId = segment 3 when segment 2 literally equals "devices" and
deviceId = segment 2 otherwise, and the message kind is the last segment;
for every topic with fewer than 3 segments, parsing fails (empty deviceId)
and the message is dropped with no side effect on the registry. -/
theorem claim_C5_topic_parsing (topic : String) (parsed : Option JTop)
    (raw : String) (now : Nat) (s : Store) :
    ((splitChar topic '/').length ≥ 3 →
      extractDeviceId topic =
        (if (splitChar topic '/').getD 1 "" = "devices" then (splitChar topic '/').getD 2 ""
         else (splitChar topic '/').getD 1 "") ∧
      messageKind topic = (splitChar topic '/').getD ((splitChar topic '/').length - 1) "") ∧
    ((splitChar topic '/').length < 3 →
      extractDeviceId topic = "" ∧
      handleMessage topic parsed raw now s = s) := by
  constructor
  · intro h3
    refine ⟨?_, rfl⟩
    unfold extractDeviceId
    rw [if_pos h3]
  · intro hlt
    have hid : extractDeviceId topic = "" := by
      unfold extractDeviceId
      rw [if_neg (by omega : ¬ (splitChar topic '/').length ≥ 3)]
    refine ⟨hid, ?_⟩
    simp [handleMessage, handleMessageE, hid]

/-- Witness for C5, at the current-format topic `breeze/devices/dev7/state`
and the too-short topic `breeze/status`. -/
theorem claim_C5_topic_parsing_witness :
    extractDeviceId "breeze/devices/dev7/state" = "dev7" ∧
    messageKind "breeze/devices/dev7/state" = "state" ∧
    extractDeviceId "breeze/status" = "" ∧
    handleMessage "breeze/status" none "x" 3 (initialStore 0) = initialStore 0 := by
  have h1 := (claim_C5_topic_parsing "breeze/devices/dev7/state" none "x" 3 (initialStore 0)).1
    (by decide)
  have h2 := (claim_C5_topic_parsing "breeze/status" none "x" 3 (initialStore 0)).2
    (by decide)
  refine ⟨?_, ?_, h2.1, h2.2⟩
  · rw [h1.1]; decide
  · rw [h1.2]; decide

/-- C2: for every topic string and every payload, the message handler
returns normally (a registry state, never a propagated exception), and when
the body throws internally the message is dropped: the registry is returned
unchanged. -/
theorem claim_C2_handler_total (topic : String) (parsed : Option JTop)
    (raw : String) (now : Nat) (s : Store) :
    (∃ s', handleMessage topic parsed raw now s = s') ∧
    ((handleMessageE topic parsed raw now s).isOk = false →
      handleMessage topic parsed raw now s = s) := by
  refine ⟨⟨_, rfl⟩, ?_⟩
  intro hfail
  unfold handleMessage
  cases he : handleMessageE topic parsed raw now s with
  | ok s' => rw [he] at hfail; simp [Except.isOk, Except.toBool] at hfail
  | error e => rfl

/-- Witness for C2, at an input whose body actually throws: a `discovery`
message whose payload is the JSON document `null` (property access on
`null` raises `TypeError`); the registry comes back unchanged. -/
theorem claim_C2_handler_total_witness :
    (handleMessageE "breeze/devices/dev1/discovery" (some (JTop.jprim JVal.jnull)) "null" 3
      (initialStore 0)).isOk = false ∧
    handleMessage "breeze/devices/dev1/discovery" (some (JTop.jprim JVal.jnull)) "null" 3
      (initialStore 0) = initialStore 0 := by
  refine ⟨by decide, ?_⟩
  exact (claim_C2_handler_total "breeze/devices/dev1/discovery" (some (JTop.jprim JVal.jnull))
    "null" 3 (initialStore 0)).2 (by decide)

/-- C8: every merge-update of an existing record keeps each field that the
partial update omits, and refreshes `lastSeen`. -/
theorem claim_C8_merge_keeps_absent_fields (now : Nat) (id : String) (u : DeviceUpdate)
    (s : Store) (d : Device) (h : getDevice s id = some d) :
    ∃ d', (updateDevice now id u s).1 = some d' ∧
      getDevice (updateDevice now id u s).2 id = some d' ∧
      d'.lastSeen = now ∧
      d'.id = d.id ∧
      (u.name = none → d'.name = d.name) ∧
      (u.type = none → d'.type = d.type) ∧
      (u.status = none → d'.status = d.status) ∧
      (u.state = none → d'.state = d.state) ∧
      (u.ipAddress = none → d'.ipAddress = d.ipAddress) ∧
      (u.macAddress = none → d'.macAddress = d.macAddress) ∧
      (u.firmwareVersion = none → d'.firmwareVersion = d.firmwareVersion) ∧
      (u.wifiStrength = none → d'.wifiStrength = d.wifiStrength) ∧
      (u.uptime = none → d'.uptime = d.uptime) := by
  unfold updateDevice
  rw [h]
  refine ⟨_, rfl, getDevice_setDevice_self _ _ _ (getDevice_eq_some h).2, rfl, rfl,
    ?_, ?_, ?_, ?_, ?_, ?_, ?_, ?_, ?_⟩
  all_goals intro hn
  all_goals rw [hn]
  all_goals rfl

/-- Witness for C8: the empty partial update applied to the seeded
`esp32-001` record changes nothing but `lastSeen`. -/
theorem claim_C8_merge_keeps_absent_fields_witness :
    ∃ d', (updateDevice 9 "esp32-001" {} (initialStore 0)).1 = some d' ∧
      d'.lastSeen = 9 ∧ d'.name = "Living Room Light" ∧ d'.state = "off" := by
  obtain ⟨d', h1, _, h3, _, hname, _, _, hstate, _, _, _, _, _⟩ :=
    claim_C8_merge_keeps_absent_fields 9 "esp32-001" {} (initialStore 0) (seedEsp32 0)
      (by decide)
  exact ⟨d', h1, h3, by rw [hname rfl]; rfl, by rw [hstate rfl]; rfl⟩

/-- C9: `publishCommand` never mutates the registry; when the bus is not
connected it returns false and publishes nothing; when connected it
publishes the payload to
`breeze/devices/{deviceId}/command/{commandName}` and returns true exactly
when the publish succeeds. -/
theorem claim_C9_publish_command (conn : MqttConn) (pubOk : Bool)
    (deviceId command : String) (data : JObj) (s : Store) :
    (publishCommand conn pubOk deviceId command data s).2.2 = s ∧
    (conn.isConnected = false ∨ conn.hasClient = false →
      (publishCommand conn pubOk deviceId command data s).1 = false ∧
      (publishCommand conn pubOk deviceId command data s).2.1 = []) ∧
    (conn.isConnected = true → conn.hasClient = true →
      (publishCommand conn pubOk deviceId command data s).2.1 =
        [(commandTopic deviceId command, data)] ∧
      (publishCommand conn pubOk deviceId command data s).1 = pubOk) := by
  unfold publishCommand
  by_cases h : (!conn.isConnected || !conn.hasClient) = true
  · rw [if_pos h]
    refine ⟨rfl, fun _ => ⟨rfl, rfl⟩, ?_⟩
    intro h1 h2
    rw [h1, h2] at h
    simp at h
  · rw [if_neg h]
    refine ⟨rfl, ?_, fun _ _ => ⟨rfl, rfl⟩⟩
    intro hd
    exfalso
    rcases hd with h1 | h1 <;> rw [h1] at h <;> simp at h

/-- Witness for C9: a connected publish emits exactly the command topic and
payload, and a disconnected publish reports failure. -/
theorem claim_C9_publish_command_witness :
    (publishCommand ⟨true, true⟩ true "dev1" "set_state" [("state", JVal.jstr "on")]
      (initialStore 0)).2.2 = initialStore 0 ∧
    (publishCommand ⟨true, true⟩ true "dev1" "set_state" [("state", JVal.jstr "on")]
      (initialStore 0)).2.1 =
      [("breeze/devices/dev1/command/set_state", [("state", JVal.jstr "on")])] ∧
    (publishCommand ⟨false, true⟩ true "dev1" "set_state" [] (initialStore 0)).1 = false := by
  have h1 := claim_C9_publish_command ⟨true, true⟩ true "dev1" "set_state"
    [("state", JVal.jstr "on")] (initialStore 0)
  have h2 := claim_C9_publish_command ⟨false, true⟩ true "dev1" "set_state" [] (initialStore 0)
  refine ⟨h1.1, ?_, (h2.2.1 (Or.inl rfl)).1⟩
  rw [(h1.2.2 rfl rfl).1]
  rfl

/-- C1: every status or state message whose topic-derived deviceId has no
existing record creates a stub record for that id rather than dropping the
update: `getDevice` afterwards returns a record. -/
theorem claim_C1_unknown_id_creates_stub (topic : String) (parsed : Option JTop)
    (raw : String) (now : Nat) (s : Store)
    (hkind : messageKind topic = "status" ∨ messageKind topic = "state")
    (hid : ¬ extractDeviceId topic = "")
    (hnew : getDevice s (extractDeviceId topic) = none) :
    ∃ d, getDevice (handleMessage topic parsed raw now s) (extractDeviceId topic) = some d := by
  have hdisc : ¬ messageKind topic = "discovery" := by
    rcases hkind with h | h <;> rw [h] <;> decide
  rcases hkind with h | h
  · have hred : handleMessage topic parsed raw now s =
        updateDeviceStatus now (extractDeviceId topic) (decodePayload parsed raw) s := by
      simp [handleMessage, handleMessageE, hid, hdisc, h]
    rw [hred]
    unfold updateDeviceStatus
    rw [hnew]
    exact ⟨_, getDevice_setDevice_self _ _ _ rfl⟩
  · have hstat : ¬ messageKind topic = "status" := by rw [h]; decide
    have hred : handleMessage topic parsed raw now s =
        updateDeviceState now (extractDeviceId topic) (decodePayload parsed raw) s := by
      simp [handleMessage, handleMessageE, hid, hdisc, hstat, h]
    rw [hred]
    unfold updateDeviceState
    rw [hnew]
    exact ⟨_, getDevice_setDevice_self _ _ _ rfl⟩

/-- Witness for C1: a status message for the unseen id "newdev" leaves a
record behind. -/
theorem claim_C1_unknown_id_creates_stub_witness :
    getDevice (initialStore 0) "newdev" = none ∧
    (∃ d, getDevice (handleMessage "breeze/devices/newdev/status" none "x" 3 (initialStore 0))
      "newdev" = some d) := by
  refine ⟨by decide, ?_⟩
  have he : extractDeviceId "breeze/devices/newdev/status" = "newdev" := by decide
  have h := claim_C1_unknown_id_creates_stub "breeze/devices/newdev/status" none "x" 3
    (initialStore 0) (Or.inl (by decide)) (by decide) (by decide)
  exact he ▸ h

/-- C4: a state message carrying a state value outside {on, off} (such as
"flicker") stores state "off", and in every reachable registry state every
record's state is a member of {on, off}. -/
theorem claim_C4_state_enum_invariant :
    (∀ (topic : String) (parsed : Option JTop) (raw : String) (now : Nat) (s : Store)
        (v : JVal),
      messageKind topic = "state" →
      ¬ extractDeviceId topic = "" →
      lookupField (jFields (decodePayload parsed raw)) "state" = some v →
      ¬ v = JVal.jstr "on" → ¬ v = JVal.jstr "off" →
      ∃ d, getDevice (handleMessage topic parsed raw now s) (extractDeviceId topic) = some d ∧
        d.state = "off") ∧
    (∀ s, Reachable s → ∀ d ∈ s, d.state = "on" ∨ d.state = "off") := by
  constructor
  · intro topic parsed raw now s v hkind hid hstate h1 h2
    have hdisc : ¬ messageKind topic = "discovery" := by rw [hkind]; decide
    have hstat : ¬ messageKind topic = "status" := by rw [hkind]; decide
    have hred : handleMessage topic parsed raw now s =
        updateDeviceState now (extractDeviceId topic) (decodePayload parsed raw) s := by
      simp [handleMessage, handleMessageE, hid, hdisc, hstat, hkind]
    rw [hred]
    simp only [updateDeviceState, hstate]
    cases hg : getDevice s (extractDeviceId topic) with
    | none =>
      refine ⟨_, getDevice_setDevice_self _ _ _ rfl, ?_⟩
      show coerceState v = "off"
      unfold coerceState
      rw [if_neg h1, if_neg h2]
    | some d0 =>
      refine ⟨_, getDevice_setDevice_self _ _ _ ?_, ?_⟩
      · simpa using (getDevice_eq_some hg).2
      · show coerceState v = "off"
        unfold coerceState
        rw [if_neg h1, if_neg h2]
  · intro s hs
    exact stateInv_reachable hs

/-- Witness for C4: the invalid state value "flicker" is stored as "off",
and the seeded registry satisfies the enumeration invariant. -/
theorem claim_C4_state_enum_invariant_witness :
    (∃ d, getDevice (handleMessage "breeze/devices/dev1/state"
        (some (JTop.jobj [("state", JVal.jstr "flicker")])) "" 4 (initialStore 0)) "dev1" =
        some d ∧ d.state = "off") ∧
    (∀ d ∈ initialStore 5, d.state = "on" ∨ d.state = "off") := by
  constructor
  · have he : extractDeviceId "breeze/devices/dev1/state" = "dev1" := by decide
    have h := claim_C4_state_enum_invariant.1 "breeze/devices/dev1/state"
      (some (JTop.jobj [("state", JVal.jstr "flicker")])) "" 4 (initialStore 0)
      (JVal.jstr "flicker") (by decide) (by decide) rfl (by decide) (by decide)
    exact he ▸ h
  · exact claim_C4_state_enum_invariant.2 (initialStore 5) (Reachable.init 5)

/-- C3: a valid JSON discovery payload (its protocol fields, when present,
are strings, per the §6 interface) arriving for a fresh id creates a record
with status "online" in which every provided field of
{name, type, firmware, ip, mac, state} is stored.  The message's id is the
payload's `id` field when it is a truthy string (the §6 format always
carries one), and otherwise defaults to the topic-derived deviceId, exactly
as `data.id = data.id || deviceId` does. -/
theorem claim_C3_discovery_fresh_id (topic : String) (obj : JObj) (raw : String)
    (now : Nat) (s : Store) (id : String)
    (hkind : messageKind topic = "discovery")
    (hid : ¬ extractDeviceId topic = "")
    (heid : (lookupField obj "id" = some (JVal.jstr id) ∧ ¬ id = "") ∨
      (lookupField obj "id" = none ∧ id = extractDeviceId topic))
    (hnew : getDevice s id = none) :
    ∃ d, getDevice (handleMessage topic (some (JTop.jobj obj)) raw now s) id = some d ∧
      d.status = "online" ∧
      (∀ x, lookupField obj "name" = some (JVal.jstr x) → d.name = x) ∧
      (∀ x, lookupField obj "type" = some (JVal.jstr x) → d.type = x) ∧
      (∀ x, lookupField obj "firmware" = some (JVal.jstr x) → d.firmwareVersion = some x) ∧
      (∀ x, lookupField obj "ip" = some (JVal.jstr x) → d.ipAddress = some x) ∧
      (∀ x, lookupField obj "mac" = some (JVal.jstr x) → d.macAddress = some x) ∧
      (∀ x, lookupField obj "state" = some (JVal.jstr x) → x = "on" ∨ x = "off" →
        d.state = x) := by
  have hred : handleMessage topic (some (JTop.jobj obj)) raw now s =
      addOrUpdateDevice now (setField obj "id" (JVal.jstr id)) s := by
    rcases heid with ⟨hsome, hne⟩ | ⟨hnone, heq⟩
    · simp [handleMessage, handleMessageE, hid, hkind, decodePayload, jGet, hsome, jTruthy,
        hne, jSet]
    · subst heq
      simp [handleMessage, handleMessageE, hid, hkind, decodePayload, jGet, hnone, jTruthy,
        jSet]
  rw [hred]
  have hfid : strField (setField obj "id" (JVal.jstr id)) "id" = some id := by
    unfold strField
    rw [lookupField_setField_self]
  simp only [addOrUpdateDevice, hfid, hnew]
  refine ⟨_, getDevice_setDevice_self _ _ _ rfl, rfl, ?_, ?_, ?_, ?_, ?_, ?_⟩
  · intro x hx
    show (strField (setField obj "id" (JVal.jstr id)) "name").getD _ = x
    unfold strField
    rw [lookupField_setField_ne obj "id" "name" _ (by decide), hx]
    rfl
  · intro x hx
    show (strField (setField obj "id" (JVal.jstr id)) "type").getD _ = x
    unfold strField
    rw [lookupField_setField_ne obj "id" "type" _ (by decide), hx]
    rfl
  · intro x hx
    show strField (setField obj "id" (JVal.jstr id)) "firmware" = some x
    unfold strField
    rw [lookupField_setField_ne obj "id" "firmware" _ (by decide), hx]
  · intro x hx
    show strField (setField obj "id" (JVal.jstr id)) "ip" = some x
    unfold strField
    rw [lookupField_setField_ne obj "id" "ip" _ (by decide), hx]
  · intro x hx
    show strField (setField obj "id" (JVal.jstr id)) "mac" = some x
    unfold strField
    rw [lookupField_setField_ne obj "id" "mac" _ (by decide), hx]
  · intro x hx hvalid
    show (enumStateField (setField obj "id" (JVal.jstr id))).getD "off" = x
    unfold enumStateField strField
    rw [lookupField_setField_ne obj "id" "state" _ (by decide), hx]
    simp [hvalid]

/-- Witness for C3: the canonical §6-shaped discovery payload, carrying its
own id "lamp7", stores every provided field; a second, id-less payload for
"fresh1" falls back to the topic-derived id. -/
theorem claim_C3_discovery_fresh_id_witness :
    (∃ d, getDevice (handleMessage "breeze/devices/lamp7/discovery"
        (some (JTop.jobj [("id", JVal.jstr "lamp7"), ("name", JVal.jstr "Lamp"),
          ("type", JVal.jstr "ESP32"), ("firmware", JVal.jstr "2.0"),
          ("ip", JVal.jstr "1.2.3.4"), ("mac", JVal.jstr "aa:bb"),
          ("state", JVal.jstr "on")])) "" 9 (initialStore 0))
        "lamp7" = some d ∧
      d.status = "online" ∧ d.name = "Lamp" ∧ d.firmwareVersion = some "2.0" ∧
      d.ipAddress = some "1.2.3.4" ∧ d.macAddress = some "aa:bb" ∧ d.state = "on") ∧
    (∃ d, getDevice (handleMessage "breeze/devices/fresh1/discovery"
        (some (JTop.jobj [("name", JVal.jstr "Lamp")])) "" 9 (initialStore 0))
        "fresh1" = some d ∧
      d.status = "online" ∧ d.name = "Lamp") := by
  constructor
  · have h := claim_C3_discovery_fresh_id "breeze/devices/lamp7/discovery"
      [("id", JVal.jstr "lamp7"), ("name", JVal.jstr "Lamp"), ("type", JVal.jstr "ESP32"),
        ("firmware", JVal.jstr "2.0"), ("ip", JVal.jstr "1.2.3.4"),
        ("mac", JVal.jstr "aa:bb"), ("state", JVal.jstr "on")]
      "" 9 (initialStore 0) "lamp7" (by decide) (by decide) (Or.inl ⟨rfl, by decide⟩)
      (by decide)
    obtain ⟨d, hget, hstatus, hname, _, hfw, hip, hmac, hstate⟩ := h
    exact ⟨d, hget, hstatus, hname "Lamp" rfl, hfw "2.0" rfl, hip "1.2.3.4" rfl,
      hmac "aa:bb" rfl, hstate "on" rfl (Or.inl rfl)⟩
  · have h := claim_C3_discovery_fresh_id "breeze/devices/fresh1/discovery"
      [("name", JVal.jstr "Lamp")] "" 9 (initialStore 0) "fresh1" (by decide) (by decide)
      (Or.inr ⟨rfl, by decide⟩) (by decide)
    obtain ⟨d, hget, hstatus, hname, _⟩ := h
    exact ⟨d, hget, hstatus, hname "Lamp" rfl⟩

/-- C6 counterexample: the topic `breeze/unknownroom/status` has three
'/'-separated segments, so the handler does extract a deviceId
("unknownroom", via the legacy form) instead of failing to parse, and
processing a status message on it changes the registry (a stub record for
"unknownroom" appears). -/
theorem claim_C6_counterexample :
    ¬ extractDeviceId "breeze/unknownroom/status" = "" ∧
    extractDeviceId "breeze/unknownroom/status" = "unknownroom" ∧
    getDevice (initialStore 0) "unknownroom" = none ∧
    getDevice (handleMessage "breeze/unknownroom/status" none "x" 7 (initialStore 0))
      "unknownroom" = some (stubDevice "unknownroom" 7) ∧
    ¬ handleMessage "breeze/unknownroom/status" none "x" 7 (initialStore 0) =
      initialStore 0 := by
  decide

/-- C6 amended: `breeze/unknownroom/status` parses in the legacy form,
yielding deviceId "unknownroom" and kind "status"; processing a message on
that topic creates or updates the record for "unknownroom" and leaves every
other registry record unchanged. -/
theorem claim_C6_amended_legacy_parse (parsed : Option JTop) (raw : String) (now : Nat)
    (s : Store) :
    extractDeviceId "breeze/unknownroom/status" = "unknownroom" ∧
    messageKind "breeze/unknownroom/status" = "status" ∧
    (∃ d, getDevice (handleMessage "breeze/unknownroom/status" parsed raw now s)
      "unknownroom" = some d) ∧
    (∀ id, ¬ id = "unknownroom" →
      getDevice (handleMessage "breeze/unknownroom/status" parsed raw now s) id =
        getDevice s id) := by
  have hred : handleMessage "breeze/unknownroom/status" parsed raw now s =
      updateDeviceStatus now "unknownroom" (decodePayload parsed raw) s := rfl
  refine ⟨rfl, rfl, ?_, ?_⟩
  · rw [hred]
    unfold updateDeviceStatus
    cases hg : getDevice s "unknownroom" with
    | none => exact ⟨_, getDevice_setDevice_self _ _ _ rfl⟩
    | some d0 =>
      refine ⟨_, getDevice_setDevice_self _ _ _ ?_⟩
      simpa using (getDevice_eq_some hg).2
  · intro id hne
    rw [hred]
    unfold updateDeviceStatus
    apply getDevice_setDevice_ne
    cases hg : getDevice s "unknownroom" with
    | none => exact fun hc => hne (by simpa using hc.symm)
    | some d0 =>
      intro hc
      apply hne
      rw [← (getDevice_eq_some hg).2]
      simpa using hc.symm

/-- Witness for the amended C6, on the seeded registry: the stub for
"unknownroom" appears and the seeded `esp32-001` record is untouched. -/
theorem claim_C6_amended_legacy_parse_witness :
    (∃ d, getDevice (handleMessage "breeze/unknownroom/status" none "x" 7 (initialStore 0))
      "unknownroom" = some d) ∧
    getDevice (handleMessage "breeze/unknownroom/status" none "x" 7 (initialStore 0))
      "esp32-001" = getDevice (initialStore 0) "esp32-001" := by
  have h := claim_C6_amended_legacy_parse none "x" 7 (initialStore 0)
  exact ⟨h.2.2.1, h.2.2.2 "esp32-001" (by decide)⟩

/-- C7 counterexample: the payload text "on " (with a trailing space) has
trimmed lowercase form "on", so the claim requires a synthesized `state`
field, but the handler lowercases without trimming and synthesizes
nothing. -/
theorem claim_C7_counterexample :
    toLowerStr (trimStr "on ") = "on" ∧
    jLookup (decodePayload none "on ") "raw_message" = some (JVal.jstr "on ") ∧
    jLookup (decodePayload none "on ") "state" = none := by
  decide

/-- C7 amended: for every payload that is not valid JSON, the decoded
payload is the map `{raw_message: text}`, and whenever the lowercase text
(with no trimming) is exactly "on" or "off", a `state` field with that
lowercase value is synthesized — plain-text payload "ON" on a state topic
yields stored state "on". -/
theorem claim_C7_amended_plain_text_decode (raw : String) :
    jLookup (decodePayload none raw) "raw_message" = some (JVal.jstr raw) ∧
    (toLowerStr raw = "on" ∨ toLowerStr raw = "off" →
      jLookup (decodePayload none raw) "state" = some (JVal.jstr (toLowerStr raw))) ∧
    (¬ (toLowerStr raw = "on" ∨ toLowerStr raw = "off") →
      jLookup (decodePayload none raw) "state" = none) ∧
    (getDevice (handleMessage "breeze/devices/dev2/state" none "ON" 6 (initialStore 0))
      "dev2").map Device.state = some "on" := by
  refine ⟨?_, ?_, ?_, by decide⟩
  · unfold decodePayload jLookup
    by_cases h : toLowerStr raw = "on" ∨ toLowerStr raw = "off"
    · rw [if_pos h]
      show lookupField (setField _ "state" _) "raw_message" = _
      rw [lookupField_setField_ne _ _ _ _ (by decide)]
      rfl
    · rw [if_neg h]
      rfl
  · intro h
    unfold decodePayload jLookup
    rw [if_pos h]
    show lookupField (setField _ "state" _) "state" = _
    rw [lookupField_setField_self]
  · intro h
    unfold decodePayload jLookup
    rw [if_neg h]
    rfl

/-- Witness for the amended C7, at the plain-text payload "ON". -/
theorem claim_C7_amended_plain_text_decode_witness :
    jLookup (decodePayload none "ON") "raw_message" = some (JVal.jstr "ON") ∧
    jLookup (decodePayload none "ON") "state" = some (JVal.jstr "on") := by
  have h := claim_C7_amended_plain_text_decode "ON"
  have hl : toLowerStr "ON" = "on" := by decide
  exact ⟨h.1, by rw [← hl]; exact h.2.1 (Or.inl hl)⟩

end Breeze
